import Mathlib

/-!
Verification of the outbound call lifecycle coordinator of the
`jaydeep-video-sdk/agents` repository, as implemented in
`examples/call_voice_agent/call_voice_agent.py` and
`examples/call_voice_agent/webhook_server.py`, against its specification.

The Python code is shallowly embedded: exceptions become an explicit
error type, the retry loop becomes structural recursion with a fuel
argument equal to the remaining loop iterations, and effectful calls
(HTTP requests, sleeps, registry mutations) are recorded in explicit
result structures or event traces.
-/

set_option autoImplicit false

namespace CallVoiceAgent

/-- Model of a Python exception as seen by the orchestration code: the
only inspections performed are `str(exc)` (the message) and whether the
exception is a `TypeError` (the `except TypeError:` clause in
`make_outbound_call`). -/
structure PyExc where
  isTypeError : Bool
  msg : String
deriving DecidableEq, Repr

/-- Characters of the literal part of the regex
`r"API request failed \[(\d{3})\]"` up to the capture group. -/
def patChars : List Char := "API request failed [".toList

/-- Attempts to match `pat` at the head of `s`; on success returns the
remaining characters after the match (the anchored part of regex
matching at one start position). -/
def headMatch : List Char → List Char → Option (List Char)
  | [], s => some s
  | _ :: _, [] => none
  | p :: ps, c :: cs => if c = p then headMatch ps cs else none

/-- After the literal `"API request failed ["`, the regex requires
exactly three digits followed by `]`; on success the captured group is
converted with `int(...)`. -/
def statusTail : List Char → Option Nat
  | d1 :: d2 :: d3 :: ']' :: _ =>
      if d1.isDigit ∧ d2.isDigit ∧ d3.isDigit then
        some ((d1.toNat - 48) * 100 + (d2.toNat - 48) * 10 + (d3.toNat - 48))
      else none
  | _ => none

/-- `re.search` semantics: try the pattern anchored at every start
position, left to right, returning the first full match. -/
def findStatus : List Char → Option Nat
  | [] => none
  | c :: cs =>
    match headMatch patChars (c :: cs) with
    | some rest =>
      match statusTail rest with
      | some n => some n
      | none => findStatus cs
    | none => findStatus cs

/-- Embedding of `_extract_status_code_from_exception` from
`call_voice_agent.py`: `_status_code_re.search(str(exc))`, returning
`int(m.group(1))` on a match and `None` otherwise. -/
def extract_status_code_from_exception (e : PyExc) : Option Nat :=
  findStatus e.msg.toList

/-- Outcome of one `_retry_call` invocation. `result` is the value
returned or the exception raised (`Except.error none` is the degenerate
`raise None` reached only when `retries = 0`, itself a `TypeError` in
Python); `attempts` counts how many times `fn` was invoked; `sleeps`
records the arguments of the `sleep` calls, in order. -/
structure RetryOut (α : Type) where
  result : Except (Option PyExc) α
  attempts : Nat
  sleeps : List ℚ

/-- Loop body of `_retry_call`. `fn k` is the behaviour of the wrapped
callable on its `k`-th invocation; `fuel` is the number of remaining
iterations of `for attempt in range(1, retries + 1)` and `attempt` the
current value of the loop variable; `lastExc` models `last_exc`.
Mirrors the source: on success return; on an exception whose extracted
status code is in `[500, 600)` either `break` (when `attempt ==
retries`, falling through to `raise last_exc`) or `sleep(backoff *
attempt)` and continue; any other exception is re-raised at once. -/
def retryGo {α : Type} (fn : Nat → Except PyExc α) (retries : Nat) (backoff : ℚ) :
    Nat → Nat → Option PyExc → RetryOut α
  | 0, _, lastExc => ⟨.error lastExc, 0, []⟩
  | fuel + 1, attempt, _ =>
    match fn attempt with
    | .ok v => ⟨.ok v, 1, []⟩
    | .error e =>
      match extract_status_code_from_exception e with
      | some code =>
        if 500 ≤ code ∧ code < 600 then
          if attempt = retries then ⟨.error (some e), 1, []⟩
          else
            let r := retryGo fn retries backoff fuel (attempt + 1) (some e)
            ⟨r.result, r.attempts + 1, backoff * (attempt : ℚ) :: r.sleeps⟩
        else ⟨.error (some e), 1, []⟩
      | none => ⟨.error (some e), 1, []⟩

/-- Embedding of `_retry_call(fn, *args, retries=3, backoff=1.0)` from
`call_voice_agent.py`: run the loop starting at `attempt = 1` with
`retries` iterations available and `last_exc = None`. -/
def retry_call {α : Type} (fn : Nat → Except PyExc α) (retries : Nat) (backoff : ℚ) :
    RetryOut α :=
  retryGo fn retries backoff retries 1 none

/-- Message produced by `requests.Response.raise_for_status()` for a
response with a 5xx status code, which is the exception that
`VideoSDKCallClient._post` (in `videosdk-apis/call_apis/call_apis.py`)
lets escape on an HTTP failure: `requests` raises `HTTPError` whose
`str` is `"<status> Server Error: <reason> for url: <url>"`. -/
def raise_for_status_server_error (status : Nat) (reason url : String) : String :=
  toString status ++ " Server Error: " ++ reason ++ " for url: " ++ url

/-- Opaque model of the `Webhook` dataclass returned by
`VideoSDKWebhookApis.create_webhook`: the orchestrator only reads
`webhook.id` (via `getattr(webhook, "id", None)`). Note that
`_normalize_webhook` in `call_webhooks_apis.py` coerces a missing id to
the empty string, so `id` is always a string but may be `""`. -/
structure WebhookObj where
  id : String
deriving DecidableEq, Repr

/-- Environment for one `make_outbound_call(room_id)` run: the
behaviour of the external HTTP operations it performs. `createWebhook
k` is the outcome of the `k`-th `create_webhook` attempt. `callKw
withId k` is the outcome of the `k`-th keyword-argument
`make_outbound_call` attempt, where `withId` records whether
`webhookId` was included in the keyword dictionary (the source only
adds it when `webhook_id is not None`); `callPos withId k` likewise for
the positional fallback taken on a `TypeError`. -/
structure MakeCallEnv (ρ : Type) where
  createWebhook : Nat → Except PyExc WebhookObj
  callKw : Bool → Nat → Except PyExc ρ
  callPos : Bool → Nat → Except PyExc ρ

/-- Result of one `make_outbound_call(room_id)` run: the returned pair
`(call_response, webhook_id)` — `callResp = none` models returning
`None` for the response — together with the arguments of the
`delete_webhook` calls made along the way, in order. All
`delete_webhook` invocations happen before the function returns. -/
structure MOCOut (ρ : Type) where
  callResp : Option ρ
  webhookId : Option String
  deletes : List String

/-- Which raised values the `except TypeError:` clause catches.
`Except.error none` is the degenerate `raise None` of `_retry_call`
with `retries = 0`, which in Python is itself a `TypeError`
("exceptions must derive from BaseException"). -/
def isTypeErrorOpt : Option PyExc → Bool
  | none => true
  | some e => e.isTypeError

/-- The rollback `if webhook_id: webhook_client.delete_webhook(webhook_id)`
on a call-trigger failure: Python truthiness skips the delete both when
`webhook_id` is `None` and when it is the empty string. The delete
itself is wrapped in `try/except Exception: pass`, so its outcome does
not matter; only the invocation is recorded. -/
def rollbackDeletes : Option String → List String
  | none => []
  | some s => if s = "" then [] else [s]

/-- The webhook-registration part of `make_outbound_call`: create the
webhook through `_retry_call`, read `webhook.id` on success, and catch
any failure, degrading `webhook_id` to `None`. -/
def mocWebhookId {ρ : Type} (env : MakeCallEnv ρ) : Option String :=
  match (retry_call env.createWebhook 3 1).result with
  | .ok w => some w.id
  | .error _ => none

/-- Embedding of `make_outbound_call(room_id)` from
`call_voice_agent.py`: register the webhook (`mocWebhookId`), then
trigger the call through `_retry_call` with keyword arguments; on a
`TypeError` fall back to positional arguments; on any other failure
(and on failure of the positional fallback) run the webhook rollback
and return `(None, webhook_id)`. -/
def make_outbound_call {ρ : Type} (env : MakeCallEnv ρ) : MOCOut ρ :=
  let webhook_id : Option String := mocWebhookId env
  match (retry_call (env.callKw webhook_id.isSome) 3 1).result with
  | .ok resp => ⟨some resp, webhook_id, []⟩
  | .error oe =>
    if isTypeErrorOpt oe then
      match (retry_call (env.callPos webhook_id.isSome) 3 1).result with
      | .ok resp => ⟨some resp, webhook_id, []⟩
      | .error _ => ⟨none, webhook_id, rollbackDeletes webhook_id⟩
    else ⟨none, webhook_id, rollbackDeletes webhook_id⟩

/-- Observable events of a `start_session` run: the external calls the
orchestrator makes, in order. -/
inductive Ev where
  | connectCall
  | startCall
  | addSession (room : String) (webhook : Option String)
  | closeCall
  | shutdownCall
  | removeSession (room : String)
  | deleteWebhook (id : String)
deriving DecidableEq, Repr

/-- Environment of one `start_session(context)` run: the room id held
by `context.room_options` (the empty string models a falsy room id,
i.e. `None` or `""`), whether `context.connect()` and `session.start()`
succeed, whether `session.close()` succeeds (a failing
`context.shutdown()` is caught by the same `except` and does not change
the emitted events, so it needs no flag), and the HTTP environment of
the spawned `make_outbound_call`. -/
structure SessEnv (ρ : Type) where
  room_id : String
  connect_ok : Bool
  start_ok : Bool
  close_ok : Bool
  moc : MakeCallEnv ρ

/-- Events of the task spawned by
`asyncio.create_task(_spawn_call_and_attach(room_id, session))`: run
`make_outbound_call`, then `add_session(room_id, session, webhook_id)`
with whatever webhook id it returned. -/
def spawnTrace {ρ : Type} (room_id : String) (env : MakeCallEnv ρ) : List Ev :=
  let r := make_outbound_call env
  r.deletes.map Ev.deleteWebhook ++ [Ev.addSession room_id r.webhookId]

/-- Events of the `finally` block of `start_session`. The first guarded
group runs `await session.close()` then `await context.shutdown()`
inside one `try/except`, so a failing close skips the shutdown. The
second guarded group re-reads `room_id` from `context.room_options` and
calls `remove_session(room_id)` only when `room_id` is truthy. The
returned webhook id of `remove_session` is discarded and no
`delete_webhook` call occurs here. -/
def cleanupTrace (room_id : String) (close_ok : Bool) : List Ev :=
  (Ev.closeCall :: (if close_ok then [Ev.shutdownCall] else [])) ++
  (if room_id = "" then [] else [Ev.removeSession room_id])

/-- Embedding of `start_session(context)` from `call_voice_agent.py` as
its event trace: connect, start the agent session, spawn the call task,
`add_session(room_id, session, None)`, wait (the
`asyncio.Event().wait()` only ends by interrupt or cancellation, after
which the `finally` block runs), then the terminal cleanup. A failure
of `connect` or `start` jumps straight to the cleanup. The spawned
task's events are placed at the spawn point; the claims proved below
are insensitive to how that task interleaves with the waiting main
coroutine, because the spawned task emits no `removeSession`,
`closeCall` or `shutdownCall` events. -/
def startSessionTrace {ρ : Type} (env : SessEnv ρ) : List Ev :=
  if env.connect_ok = false then
    Ev.connectCall :: cleanupTrace env.room_id env.close_ok
  else if env.start_ok = false then
    Ev.connectCall :: Ev.startCall :: cleanupTrace env.room_id env.close_ok
  else
    Ev.connectCall :: Ev.startCall ::
      Ev.addSession env.room_id none ::
      (spawnTrace env.room_id env.moc ++ cleanupTrace env.room_id env.close_ok)

/-- Value stored under a room id in the `active_sessions` dictionary of
`webhook_server.py`: `{"session": session, "webhook_id": webhook_id}`. -/
structure SessionEntry (σ : Type) where
  session : σ
  webhook_id : Option String
deriving DecidableEq, Repr

/-- The module-level `active_sessions: Dict[str, dict]` of
`webhook_server.py`, modelled as an insertion-ordered association
list, the iteration order of a Python dict. -/
abbrev Registry (σ : Type) : Type := List (String × SessionEntry σ)

/-- Embedding of `add_session(room_id, session, webhook_id)`:
`active_sessions[room_id] = {"session": session, "webhook_id":
webhook_id}` — replace in place when the key is present, append
otherwise. -/
def add_session {σ : Type} (room_id : String) (s : σ) (w : Option String)
    (st : Registry σ) : Registry σ :=
  if st.any (fun p => p.1 == room_id) then
    st.map (fun p => if p.1 = room_id then (room_id, ⟨s, w⟩) else p)
  else st ++ [(room_id, ⟨s, w⟩)]

/-- Dictionary lookup `active_sessions[room_id]` (as an option). -/
def lookupSession {σ : Type} (room_id : String) (st : Registry σ) :
    Option (SessionEntry σ) :=
  (st.find? (fun p => p.1 == room_id)).map Prod.snd

/-- Embedding of `remove_session(room_id)`: when the key is present,
read the entry's `webhook_id`, delete the entry and return the webhook
id; otherwise return `None`. Returns the result together with the new
registry state. -/
def remove_session {σ : Type} (room_id : String) (st : Registry σ) :
    Option String × Registry σ :=
  match st.find? (fun p => p.1 == room_id) with
  | some p => (p.2.webhook_id, st.filter (fun q => !(q.1 == room_id)))
  | none => (none, st)

/-- Helper for the retry analysis: when every attempt up to `retries`
fails with an exception whose extracted status code is in `[500, 600)`,
`retryGo` starting at `attempt` with exactly the remaining fuel uses
all of it, raises the last failure, and sleeps `backoff * k` for
`k = attempt, ..., retries - 1`. -/
theorem retryGo_all5xx {α : Type} (fn : Nat → Except PyExc α) (retries : Nat) (b : ℚ)
    (hfail : ∀ k, 1 ≤ k → k ≤ retries → ∃ e, fn k = Except.error e ∧
      ∃ c, extract_status_code_from_exception e = some c ∧ 500 ≤ c ∧ c < 600) :
    ∀ fuel attempt lastExc, 1 ≤ fuel → fuel + attempt = retries + 1 → 1 ≤ attempt →
      ∃ e, fn retries = Except.error e ∧
        retryGo fn retries b fuel attempt lastExc =
          ⟨Except.error (some e), fuel,
            (List.range' attempt (retries - attempt)).map (fun k => b * (k : ℚ))⟩ := by
  intro fuel
  induction fuel with
  | zero => intro attempt lastExc h1 _ _; exact absurd h1 (by omega)
  | succ f ih =>
    intro attempt lastExc _ hsum hatt
    have hattle : attempt ≤ retries := by omega
    obtain ⟨e, he, c, hc, hc5⟩ := hfail attempt hatt hattle
    by_cases hlast : attempt = retries
    · have hf : f = 0 := by omega
      subst hf
      subst hlast
      refine ⟨e, he, ?_⟩
      simp [retryGo, he, hc, hc5]
    · obtain ⟨e2, he2, hrec⟩ := ih (attempt + 1) (some e) (by omega) (by omega) (by omega)
      refine ⟨e2, he2, ?_⟩
      have hn : retries - attempt = (retries - (attempt + 1)) + 1 := by omega
      simp only [retryGo, he, hc]
      rw [if_pos hc5, if_neg hlast, hrec, hn, List.range'_succ]
      simp

/-- C1: for every function `fn` that always fails with an error whose
message carries an HTTP status in the 500-599 range,
`_retry_call(fn, retries, backoff=b)` makes exactly `retries` attempts,
then raises the last failure, and the sleep durations between
successive attempts are `b*1, b*2, ..., b*(retries-1)`. -/
theorem retry_call_always_5xx_exhausts {α : Type} (fn : Nat → Except PyExc α)
    (retries : Nat) (b : ℚ) (hr : 1 ≤ retries)
    (hfail : ∀ k, 1 ≤ k → k ≤ retries → ∃ e, fn k = Except.error e ∧
      ∃ c, extract_status_code_from_exception e = some c ∧ 500 ≤ c ∧ c < 600) :
    (retry_call fn retries b).attempts = retries ∧
    (∃ e, fn retries = Except.error e ∧
      (retry_call fn retries b).result = Except.error (some e)) ∧
    (retry_call fn retries b).sleeps =
      (List.range' 1 (retries - 1)).map (fun k => b * (k : ℚ)) := by
  obtain ⟨e, he, hgo⟩ :=
    retryGo_all5xx fn retries b hfail retries 1 none hr (by omega) le_rfl
  unfold retry_call
  rw [hgo]
  exact ⟨rfl, ⟨e, he, rfl⟩, rfl⟩

/-- Witness for C1 at a concrete stub: a call that always fails with
`"API request failed [503]: Service Unavailable"`, `retries = 3`,
`backoff = 1`, makes 3 attempts, raises the last failure, and sleeps
`1*1` and `1*2` seconds. -/
theorem retry_call_always_5xx_exhausts_witness :
    (retry_call (α := Nat)
      (fun _ => Except.error ⟨false, "API request failed [503]: Service Unavailable"⟩)
      3 1).attempts = 3 ∧
    (∃ e, (fun _ => Except.error (α := Nat)
        ⟨false, "API request failed [503]: Service Unavailable"⟩) 3 = Except.error e ∧
      (retry_call (α := Nat)
        (fun _ => Except.error ⟨false, "API request failed [503]: Service Unavailable"⟩)
        3 1).result = Except.error (some e)) ∧
    (retry_call (α := Nat)
      (fun _ => Except.error ⟨false, "API request failed [503]: Service Unavailable"⟩)
      3 1).sleeps = (List.range' 1 (3 - 1)).map (fun k => (1 : ℚ) * (k : ℚ)) :=
  retry_call_always_5xx_exhausts
    (fun _ => Except.error ⟨false, "API request failed [503]: Service Unavailable"⟩)
    3 1 (by decide)
    (fun k _ _ => ⟨⟨false, "API request failed [503]: Service Unavailable"⟩, rfl,
      503, by decide, by decide, by decide⟩)

/-- C2: for every function whose first-attempt failure is not a 5xx
server error — a 4xx status, or an error with no parseable status code
in its message — `_retry_call` makes exactly one attempt, the error
propagates immediately, and no sleep happens. -/
theorem retry_call_non5xx_single_attempt {α : Type} (fn : Nat → Except PyExc α)
    (retries : Nat) (b : ℚ) (hr : 1 ≤ retries) (e : PyExc)
    (h1 : fn 1 = Except.error e)
    (hcode : ∀ c, extract_status_code_from_exception e = some c →
      ¬(500 ≤ c ∧ c < 600)) :
    retry_call fn retries b = ⟨Except.error (some e), 1, []⟩ := by
  obtain ⟨r, rfl⟩ : ∃ r, retries = r + 1 := ⟨retries - 1, by omega⟩
  unfold retry_call
  simp only [retryGo, h1]
  cases hc : extract_status_code_from_exception e with
  | none => simp
  | some c => simp [if_neg (hcode c hc)]

/-- Witness for C2 at a concrete stub: a call that fails with
`"API request failed [400]: Bad Request"` is attempted once under
`retries = 3`, the error propagates, and no sleep is recorded. -/
theorem retry_call_non5xx_single_attempt_witness :
    retry_call (α := Nat)
      (fun _ => Except.error ⟨false, "API request failed [400]: Bad Request"⟩) 3 1 =
      ⟨Except.error (some ⟨false, "API request failed [400]: Bad Request"⟩), 1, []⟩ :=
  retry_call_non5xx_single_attempt
    (fun _ => Except.error ⟨false, "API request failed [400]: Bad Request"⟩)
    3 1 (by decide) ⟨false, "API request failed [400]: Bad Request"⟩ rfl
    (fun c hc => by
      have : c = 400 := by
        have hv : extract_status_code_from_exception
            ⟨false, "API request failed [400]: Bad Request"⟩ = some 400 := by decide
        rw [hv] at hc
        exact (Option.some_injective _ hc).symm
      subst this
      decide)

/-- C3 (divergence witness): `VideoSDKCallClient._post` surfaces an
HTTP failure via `resp.raise_for_status()`, whose exception message is
`"<status> Server Error: ..."`, not the `"API request failed [<code>]"`
pattern that `_extract_status_code_from_exception` looks for. On a 503
response the extractor therefore returns `None`, and `_retry_call`
around `make_outbound_call` makes exactly one attempt and re-raises
instead of retrying. -/
theorem call_trigger_5xx_not_retried :
    extract_status_code_from_exception
      ⟨false, raise_for_status_server_error 503 "Service Unavailable"
        "https://api.videosdk.live/v2/sip/call"⟩ = none ∧
    (retry_call (α := Nat)
      (fun _ => Except.error ⟨false, raise_for_status_server_error 503 "Service Unavailable"
        "https://api.videosdk.live/v2/sip/call"⟩) 3 1).attempts = 1 ∧
    (retry_call (α := Nat)
      (fun _ => Except.error ⟨false, raise_for_status_server_error 503 "Service Unavailable"
        "https://api.videosdk.live/v2/sip/call"⟩) 3 1).sleeps = [] ∧
    (retry_call (α := Nat)
      (fun _ => Except.error ⟨false, raise_for_status_server_error 503 "Service Unavailable"
        "https://api.videosdk.live/v2/sip/call"⟩) 3 1).result =
      Except.error (some ⟨false, raise_for_status_server_error 503 "Service Unavailable"
        "https://api.videosdk.live/v2/sip/call"⟩) :=
  ⟨by decide, by decide, by decide, rfl⟩

/-- Helper: when the wrapped callable succeeds on the current attempt,
the retry loop returns at once. -/
theorem retryGo_first_ok {α : Type} (fn : Nat → Except PyExc α) (retries : Nat)
    (b : ℚ) (fuel attempt : Nat) (lastExc : Option PyExc) (resp : α)
    (h : fn attempt = Except.ok resp) :
    retryGo fn retries b (fuel + 1) attempt lastExc = ⟨Except.ok resp, 1, []⟩ := by
  simp [retryGo, h]

/-- Helper: when the wrapped callable fails on every attempt, the retry
loop raises (its result is an error, never a value). -/
theorem retryGo_allFail {α : Type} (fn : Nat → Except PyExc α) (retries : Nat)
    (b : ℚ) (hfail : ∀ k, ∃ e, fn k = Except.error e) :
    ∀ fuel attempt lastExc, ∃ oe,
      (retryGo fn retries b fuel attempt lastExc).result = Except.error oe := by
  intro fuel
  induction fuel with
  | zero => intro _ lastExc; exact ⟨lastExc, rfl⟩
  | succ f ih =>
    intro attempt lastExc
    obtain ⟨e, he⟩ := hfail attempt
    simp only [retryGo, he]
    cases hc : extract_status_code_from_exception e with
    | none => exact ⟨some e, rfl⟩
    | some c =>
      dsimp only
      by_cases h5 : 500 ≤ c ∧ c < 600
      · rw [if_pos h5]
        by_cases hl : attempt = retries
        · rw [if_pos hl]; exact ⟨some e, rfl⟩
        · rw [if_neg hl]
          obtain ⟨oe, hoe⟩ := ih (attempt + 1) (some e)
          exact ⟨oe, hoe⟩
      · rw [if_neg h5]; exact ⟨some e, rfl⟩

/-- C4 (amended): whenever webhook registration produced a non-`None`
and non-empty `webhook_id` and the call trigger then fails (after
exhausting its retries), `make_outbound_call` invokes `delete_webhook`
exactly once with that id before returning the call failure. The
non-emptiness proviso is forced by the source guard `if webhook_id:`,
which skips the rollback for a falsy (empty-string) id. -/
theorem make_outbound_call_rollback {ρ : Type} (env : MakeCallEnv ρ) (s : String)
    (hw : (make_outbound_call env).webhookId = some s)
    (hs : s ≠ "")
    (hfail : (make_outbound_call env).callResp = none) :
    (make_outbound_call env).deletes = [s] := by
  simp only [make_outbound_call] at hw hfail ⊢
  cases hkw : (retry_call (env.callKw (mocWebhookId env).isSome) 3 1).result with
  | ok resp => rw [hkw] at hfail; simp at hfail
  | error oe =>
    rw [hkw] at hw
    dsimp only at hw ⊢
    by_cases ht : isTypeErrorOpt oe = true
    · rw [if_pos ht] at hw
      rw [if_pos ht]
      cases hpos : (retry_call (env.callPos (mocWebhookId env).isSome) 3 1).result with
      | ok resp =>
        rw [hkw] at hfail
        dsimp only at hfail
        rw [if_pos ht, hpos] at hfail
        simp at hfail
      | error oe2 =>
        rw [hpos] at hw
        dsimp only at hw
        dsimp only
        rw [hw]
        simp [rollbackDeletes, hs]
    · rw [if_neg ht] at hw
      rw [if_neg ht]
      dsimp only at hw ⊢
      rw [hw]
      simp [rollbackDeletes, hs]

/-- Witness for C4 (amended) at a concrete environment: webhook created
with id `"wh1"`; the keyword-argument call raises `TypeError` (the real
client has no `webhookId` parameter), the positional fallback fails
three times with 503; `delete_webhook` is invoked exactly once with
`"wh1"`. -/
theorem make_outbound_call_rollback_witness :
    (make_outbound_call (ρ := Nat)
      ⟨fun _ => Except.ok ⟨"wh1"⟩,
       fun _ _ => Except.error ⟨true, "make_outbound_call() got an unexpected keyword argument"⟩,
       fun _ _ => Except.error ⟨false, "API request failed [503]: upstream error"⟩⟩).deletes
      = ["wh1"] :=
  make_outbound_call_rollback
    ⟨fun _ => Except.ok ⟨"wh1"⟩,
     fun _ _ => Except.error ⟨true, "make_outbound_call() got an unexpected keyword argument"⟩,
     fun _ _ => Except.error ⟨false, "API request failed [503]: upstream error"⟩⟩
    "wh1" (by decide) (by decide) (by decide)

/-- Counterexample to C4 as stated: with a webhook registration that
succeeds but yields the empty-string id (which `_normalize_webhook`
produces when the server response carries no id field), `webhook_id`
is non-`None`, the call trigger exhausts its three 503 retries, and yet
`delete_webhook` is never invoked, because the rollback guard
`if webhook_id:` treats the empty string as falsy. -/
theorem make_outbound_call_empty_id_skips_rollback :
    (make_outbound_call (ρ := Nat)
      ⟨fun _ => Except.ok ⟨""⟩,
       fun _ _ => Except.error ⟨false, "API request failed [503]: upstream error"⟩,
       fun _ _ => Except.ok 0⟩).webhookId = some "" ∧
    (retry_call (α := Nat)
      (fun _ => Except.error ⟨false, "API request failed [503]: upstream error"⟩)
      3 1).attempts = 3 ∧
    (make_outbound_call (ρ := Nat)
      ⟨fun _ => Except.ok ⟨""⟩,
       fun _ _ => Except.error ⟨false, "API request failed [503]: upstream error"⟩,
       fun _ _ => Except.ok 0⟩).callResp = none ∧
    (make_outbound_call (ρ := Nat)
      ⟨fun _ => Except.ok ⟨""⟩,
       fun _ _ => Except.error ⟨false, "API request failed [503]: upstream error"⟩,
       fun _ _ => Except.ok 0⟩).deletes = [] :=
  ⟨by decide, by decide, by decide, by decide⟩

/-- C6: if webhook registration fails on every attempt (the
`create_webhook` call raises), `make_outbound_call` catches the failure
and degrades `webhook_id` to `None`, still proceeds to trigger the
outbound call, and returns the successful call response with no
rollback; no exception from the registration failure escapes (the
embedding is a total function returning a plain result). -/
theorem make_outbound_call_degraded {ρ : Type} (env : MakeCallEnv ρ) (resp : ρ)
    (hwfail : ∀ k, ∃ e, env.createWebhook k = Except.error e)
    (hcall : env.callKw false 1 = Except.ok resp) :
    (make_outbound_call env).callResp = some resp ∧
    (make_outbound_call env).webhookId = none ∧
    (make_outbound_call env).deletes = [] := by
  have hwid : mocWebhookId env = none := by
    unfold mocWebhookId
    obtain ⟨oe, hoe⟩ := retryGo_allFail env.createWebhook 3 1 hwfail 3 1 none
    unfold retry_call
    rw [hoe]
  have hkw : retry_call (env.callKw (mocWebhookId env).isSome) 3 1 =
      ⟨Except.ok resp, 1, []⟩ := by
    rw [hwid]
    exact retryGo_first_ok (env.callKw false) 3 1 2 1 none resp hcall
  simp only [make_outbound_call, hkw]
  simp [hwid]

/-- Witness for C6 at a concrete environment: registration always
fails with a 502, the call trigger succeeds on its first attempt; the
orchestrator returns the call response with `webhook_id = None` and no
rollback. -/
theorem make_outbound_call_degraded_witness :
    (make_outbound_call (ρ := Nat)
      ⟨fun _ => Except.error ⟨false, "API request failed [502]: bad gateway"⟩,
       fun _ _ => Except.ok 42,
       fun _ _ => Except.ok 0⟩).callResp = some 42 ∧
    (make_outbound_call (ρ := Nat)
      ⟨fun _ => Except.error ⟨false, "API request failed [502]: bad gateway"⟩,
       fun _ _ => Except.ok 42,
       fun _ _ => Except.ok 0⟩).webhookId = none ∧
    (make_outbound_call (ρ := Nat)
      ⟨fun _ => Except.error ⟨false, "API request failed [502]: bad gateway"⟩,
       fun _ _ => Except.ok 42,
       fun _ _ => Except.ok 0⟩).deletes = [] :=
  make_outbound_call_degraded
    ⟨fun _ => Except.error ⟨false, "API request failed [502]: bad gateway"⟩,
     fun _ _ => Except.ok 42,
     fun _ _ => Except.ok 0⟩
    42 (fun _ => ⟨⟨false, "API request failed [502]: bad gateway"⟩, rfl⟩) rfl

/-- Helper: the spawned call-and-attach task only emits `deleteWebhook`
and `addSession` events — never `removeSession`, `closeCall` or
`shutdownCall`. -/
theorem spawnTrace_events {ρ : Type} (room : String) (env : MakeCallEnv ρ) (e : Ev)
    (he : e ∈ spawnTrace room env) :
    (∃ i, e = Ev.deleteWebhook i) ∨
      e = Ev.addSession room (make_outbound_call env).webhookId := by
  unfold spawnTrace at he
  rw [List.mem_append] at he
  rcases he with hd | ha
  · obtain ⟨i, _, rfl⟩ := List.mem_map.mp hd
    exact .inl ⟨i, rfl⟩
  · rw [List.mem_singleton] at ha
    exact .inr ha

/-- Helper: no `removeSession` event occurs in the spawned task. -/
theorem removeSession_notin_spawnTrace {ρ : Type} (room r : String)
    (env : MakeCallEnv ρ) : Ev.removeSession r ∉ spawnTrace room env := by
  intro hmem
  rcases spawnTrace_events room env _ hmem with ⟨i, hi⟩ | hi <;> exact Ev.noConfusion hi

/-- Helper: no `shutdownCall` event occurs in the spawned task. -/
theorem shutdownCall_notin_spawnTrace {ρ : Type} (room : String)
    (env : MakeCallEnv ρ) : Ev.shutdownCall ∉ spawnTrace room env := by
  intro hmem
  rcases spawnTrace_events room env _ hmem with ⟨i, hi⟩ | hi <;> exact Ev.noConfusion hi

/-- C7 (amended): for every run of `start_session`, regardless of which
orchestration stage fails — connect, agent-session start, webhook
registration, the call trigger (both only ever run in the spawned task)
or the wait for call end — `remove_session(room_id)` is called exactly
once by the end of the run, provided the context's room id is truthy
(non-empty). The proviso is forced by the guard `if room_id:` in the
`finally` block. -/
theorem start_session_removes_once {ρ : Type} (env : SessEnv ρ)
    (h : env.room_id ≠ "") :
    (startSessionTrace env).count (Ev.removeSession env.room_id) = 1 := by
  have hspawn : (spawnTrace env.room_id env.moc).count (Ev.removeSession env.room_id) = 0 :=
    List.count_eq_zero.mpr (removeSession_notin_spawnTrace _ _ _)
  cases hc : env.connect_ok <;> cases hst : env.start_ok <;> cases hcl : env.close_ok <;>
    simp [startSessionTrace, cleanupTrace, hc, hst, hcl, h,
      List.count_cons, List.count_append, List.count_singleton, hspawn]

/-- Witness for C7 (amended) at a concrete run: room `"r1"`, every
stage succeeds, the spawned task attaches webhook `"wh1"`; the registry
removal happens exactly once. -/
theorem start_session_removes_once_witness :
    (startSessionTrace (ρ := Nat)
      ⟨"r1", true, true, true,
        ⟨fun _ => Except.ok ⟨"wh1"⟩, fun _ _ => Except.ok 7, fun _ _ => Except.ok 7⟩⟩).count
      (Ev.removeSession "r1") = 1 :=
  start_session_removes_once
    ⟨"r1", true, true, true,
      ⟨fun _ => Except.ok ⟨"wh1"⟩, fun _ _ => Except.ok 7, fun _ _ => Except.ok 7⟩⟩
    (by decide)

/-- Counterexample to C7 as stated: a run whose context carries a falsy
(empty) room id executes every stage successfully, yet `remove_session`
is never called — the `finally` guard `if room_id:` skips it. The whole
event trace is computed explicitly; it contains no `removeSession`
event at all. -/
theorem start_session_empty_room_never_removes :
    startSessionTrace (ρ := Nat)
      ⟨"", true, true, true,
        ⟨fun _ => Except.ok ⟨"wh1"⟩, fun _ _ => Except.ok 7, fun _ _ => Except.ok 7⟩⟩ =
      [Ev.connectCall, Ev.startCall, Ev.addSession "" none,
        Ev.addSession "" (some "wh1"), Ev.closeCall, Ev.shutdownCall] ∧
    (startSessionTrace (ρ := Nat)
      ⟨"", true, true, true,
        ⟨fun _ => Except.ok ⟨"wh1"⟩, fun _ _ => Except.ok 7, fun _ _ => Except.ok 7⟩⟩).count
      (Ev.removeSession "") = 0 :=
  ⟨by decide, by decide⟩

/-- C8 (amended): in the terminal cleanup, registry removal is guarded
independently of the close/shutdown pair, so it runs whether or not
`session.close()` fails; but `session.close()` and `context.shutdown()`
share a single `try`, so `context.shutdown()` is attempted exactly when
the close succeeded. -/
theorem start_session_cleanup_grouping {ρ : Type} (env : SessEnv ρ)
    (h : env.room_id ≠ "") :
    Ev.closeCall ∈ startSessionTrace env ∧
    Ev.removeSession env.room_id ∈ startSessionTrace env ∧
    (Ev.shutdownCall ∈ startSessionTrace env ↔ env.close_ok = true) := by
  have hspawn := shutdownCall_notin_spawnTrace env.room_id env.moc
  cases hc : env.connect_ok <;> cases hst : env.start_ok <;> cases hcl : env.close_ok <;>
    simp [startSessionTrace, cleanupTrace, hc, hst, hcl, h, hspawn]

/-- Witness for C8 (amended) at a concrete run in which
`session.close()` fails: the close is attempted, the registry entry is
still removed, and no shutdown is attempted. -/
theorem start_session_cleanup_grouping_witness :
    Ev.closeCall ∈ startSessionTrace (ρ := Nat)
      ⟨"r1", true, true, false,
        ⟨fun _ => Except.ok ⟨"wh1"⟩, fun _ _ => Except.ok 7, fun _ _ => Except.ok 7⟩⟩ ∧
    Ev.removeSession "r1" ∈ startSessionTrace (ρ := Nat)
      ⟨"r1", true, true, false,
        ⟨fun _ => Except.ok ⟨"wh1"⟩, fun _ _ => Except.ok 7, fun _ _ => Except.ok 7⟩⟩ ∧
    (Ev.shutdownCall ∈ startSessionTrace (ρ := Nat)
      ⟨"r1", true, true, false,
        ⟨fun _ => Except.ok ⟨"wh1"⟩, fun _ _ => Except.ok 7, fun _ _ => Except.ok 7⟩⟩ ↔
      (false : Bool) = true) :=
  start_session_cleanup_grouping
    ⟨"r1", true, true, false,
      ⟨fun _ => Except.ok ⟨"wh1"⟩, fun _ _ => Except.ok 7, fun _ _ => Except.ok 7⟩⟩
    (by decide)

/-- Counterexample to C8 as stated: a run in which `session.close()`
fails. The cleanup is not a sequence of independently guarded actions:
`context.shutdown()` is skipped (it shares the failing close's `try`
block), even though registry removal still runs. -/
theorem start_session_close_failure_skips_shutdown :
    startSessionTrace (ρ := Nat)
      ⟨"r2", true, true, false,
        ⟨fun _ => Except.ok ⟨"wh1"⟩, fun _ _ => Except.ok 7, fun _ _ => Except.ok 7⟩⟩ =
      [Ev.connectCall, Ev.startCall, Ev.addSession "r2" none,
        Ev.addSession "r2" (some "wh1"), Ev.closeCall, Ev.removeSession "r2"] ∧
    Ev.shutdownCall ∉ startSessionTrace (ρ := Nat)
      ⟨"r2", true, true, false,
        ⟨fun _ => Except.ok ⟨"wh1"⟩, fun _ _ => Except.ok 7, fun _ _ => Except.ok 7⟩⟩ ∧
    Ev.removeSession "r2" ∈ startSessionTrace (ρ := Nat)
      ⟨"r2", true, true, false,
        ⟨fun _ => Except.ok ⟨"wh1"⟩, fun _ _ => Except.ok 7, fun _ _ => Except.ok 7⟩⟩ :=
  ⟨by decide, by decide, by decide⟩

/-- C9 (divergence witness): on the normal teardown path of a fully
successful run — webhook `"wh1"` registered and stored in the registry,
call triggered, session later torn down — the registry entry is
removed, but `delete_webhook` is never invoked for `"wh1"`: the
`finally` block of `start_session` discards the webhook id returned by
`remove_session` (despite that function's own docstring saying it is
returned "for cleanup") and no teardown path calls `delete_webhook`.
The webhook subscription therefore leaks server-side, contradicting the
specified invariant that a non-null `webhook_id` is deleted exactly
once before the session is removed from the registry. -/
theorem teardown_leaks_webhook :
    startSessionTrace (ρ := Nat)
      ⟨"r1", true, true, true,
        ⟨fun _ => Except.ok ⟨"wh1"⟩, fun _ _ => Except.ok 7, fun _ _ => Except.ok 7⟩⟩ =
      [Ev.connectCall, Ev.startCall, Ev.addSession "r1" none,
        Ev.addSession "r1" (some "wh1"), Ev.closeCall, Ev.shutdownCall,
        Ev.removeSession "r1"] ∧
    (startSessionTrace (ρ := Nat)
      ⟨"r1", true, true, true,
        ⟨fun _ => Except.ok ⟨"wh1"⟩, fun _ _ => Except.ok 7, fun _ _ => Except.ok 7⟩⟩).count
      (Ev.deleteWebhook "wh1") = 0 ∧
    Ev.addSession "r1" (some "wh1") ∈ startSessionTrace (ρ := Nat)
      ⟨"r1", true, true, true,
        ⟨fun _ => Except.ok ⟨"wh1"⟩, fun _ _ => Except.ok 7, fun _ _ => Except.ok 7⟩⟩ ∧
    Ev.removeSession "r1" ∈ startSessionTrace (ρ := Nat)
      ⟨"r1", true, true, true,
        ⟨fun _ => Except.ok ⟨"wh1"⟩, fun _ _ => Except.ok 7, fun _ _ => Except.ok 7⟩⟩ :=
  ⟨by decide, by decide, by decide, by decide⟩

/-- Helper: after `add_session`, looking up the added room finds
exactly the freshly stored entry, whichever branch (in-place overwrite
or append) was taken. -/
theorem find?_add_session {σ : Type} (room : String) (s : σ) (w : Option String)
    (st : Registry σ) :
    (add_session room s w st).find? (fun p => p.1 == room) = some (room, ⟨s, w⟩) := by
  induction st with
  | nil => simp [add_session]
  | cons p t ih =>
    by_cases hp : p.1 = room
    · have hany : ((p :: t).any (fun q => q.1 == room)) = true := by
        simp [List.any_cons, hp]
      rw [add_session, if_pos hany]
      simp [List.find?, hp]
    · by_cases hany : (t.any (fun q => q.1 == room)) = true
      · have hany2 : ((p :: t).any (fun q => q.1 == room)) = true := by
          simp [List.any_cons, hany]
        rw [add_session, if_pos hany2]
        have ht : (add_session room s w t) = t.map
            (fun q => if q.1 = room then (room, ⟨s, w⟩) else q) := by
          rw [add_session, if_pos hany]
        simp only [List.map_cons, if_neg hp]
        rw [List.find?_cons_of_neg _ (by simp [hp])]
        rw [← ht, ih]
      · have hanyf : (t.any (fun q => q.1 == room)) = false := by
          cases h : t.any (fun q => q.1 == room) with
          | false => rfl
          | true => exact absurd h hany
        have hany2 : ((p :: t).any (fun q => q.1 == room)) = false := by
          simp [List.any_cons, hp, hanyf]
        rw [add_session, if_neg (by simp [hany2])]
        have ht : (add_session room s w t) = t ++ [(room, ⟨s, w⟩)] := by
          rw [add_session, if_neg (by simp [hanyf])]
        rw [List.cons_append, List.find?_cons_of_neg _ (by simp [hp])]
        rw [← ht, ih]

/-- Helper: after filtering out every entry keyed by `room`, a lookup
for `room` finds nothing. -/
theorem find?_filter_self {σ : Type} (room : String) (st : Registry σ) :
    (st.filter (fun q => !(q.1 == room))).find? (fun p => p.1 == room) = none := by
  rw [List.find?_eq_none]
  intro x hx
  have hkeep := (List.mem_filter.mp hx).2
  simp only [Bool.not_eq_eq_eq_not, Bool.not_true] at hkeep
  simp [hkeep]

/-- C5: for every registry state, after `add_session(r, session,
webhook_id)` the first `remove_session(r)` returns the stored
`webhook_id` and deletes the entry for `r`, and a second
`remove_session(r)` returns `None` and leaves the registry unchanged;
both calls are total functions of the state (neither raises). -/
theorem remove_session_idempotent {σ : Type} (st : Registry σ) (room : String)
    (s : σ) (w : Option String) :
    (remove_session room (add_session room s w st)).1 = w ∧
    lookupSession room (remove_session room (add_session room s w st)).2 = none ∧
    (remove_session room (remove_session room (add_session room s w st)).2).1 = none ∧
    (remove_session room (remove_session room (add_session room s w st)).2).2 =
      (remove_session room (add_session room s w st)).2 := by
  have h1 := find?_add_session room s w st
  have hrm : remove_session room (add_session room s w st) =
      (w, (add_session room s w st).filter (fun q => !(q.1 == room))) := by
    rw [remove_session, h1]
  have h2 := find?_filter_self room (add_session room s w st)
  refine ⟨by rw [hrm], ?_, ?_, ?_⟩
  · rw [hrm, lookupSession, h2]
    rfl
  · rw [hrm, remove_session, h2]
  · rw [hrm, remove_session, h2]

/-- Helper: a lookup for `r2` is unaffected by filtering out the
entries keyed by a different room `r`. -/
theorem find?_filter_frame {σ : Type} (st : Registry σ) (r r2 : String)
    (hne : r2 ≠ r) :
    (st.filter (fun q => !(q.1 == r))).find? (fun p => p.1 == r2) =
      st.find? (fun p => p.1 == r2) := by
  induction st with
  | nil => rfl
  | cons p t ih =>
    by_cases hp : p.1 = r
    · have hp2 : ¬((fun q => q.1 == r2) p = true) := by simp [hp, Ne.symm hne]
      rw [List.filter_cons, if_neg (by simp [hp]), ih, List.find?_cons_of_neg t hp2]
    · rw [List.filter_cons, if_pos (by simp [hp])]
      by_cases hp2 : ((fun q => q.1 == r2) p = true)
      · rw [List.find?_cons_of_pos (p := fun (q : String × SessionEntry σ) => q.1 == r2) _ hp2,
          List.find?_cons_of_pos (p := fun (q : String × SessionEntry σ) => q.1 == r2) _ hp2]
      · rw [List.find?_cons_of_neg (p := fun (q : String × SessionEntry σ) => q.1 == r2) _ hp2,
          List.find?_cons_of_neg (p := fun (q : String × SessionEntry σ) => q.1 == r2) _ hp2, ih]

/-- Helper: a lookup for `r2` is unaffected by `add_session` under a
different room `r`. -/
theorem find?_add_frame {σ : Type} (st : Registry σ) (r r2 : String)
    (hne : r2 ≠ r) (s : σ) (w : Option String) :
    (add_session r s w st).find? (fun p => p.1 == r2) =
      st.find? (fun p => p.1 == r2) := by
  rw [add_session]
  by_cases hany : (st.any (fun p => p.1 == r)) = true
  · rw [if_pos hany]
    clear hany
    induction st with
    | nil => rfl
    | cons p t ih =>
      rw [List.map_cons]
      by_cases hp : p.1 = r
      · rw [if_pos hp]
        rw [List.find?_cons_of_neg (p := fun (q : String × SessionEntry σ) => q.1 == r2) _ (by simp [Ne.symm hne])]
        rw [List.find?_cons_of_neg (p := fun (q : String × SessionEntry σ) => q.1 == r2) _ (by simp [hp, Ne.symm hne])]
        exact ih
      · rw [if_neg hp]
        by_cases hp2 : ((fun q => q.1 == r2) p = true)
        · rw [List.find?_cons_of_pos (p := fun (q : String × SessionEntry σ) => q.1 == r2) _ hp2,
            List.find?_cons_of_pos (p := fun (q : String × SessionEntry σ) => q.1 == r2) _ hp2]
        · rw [List.find?_cons_of_neg (p := fun (q : String × SessionEntry σ) => q.1 == r2) _ hp2,
            List.find?_cons_of_neg (p := fun (q : String × SessionEntry σ) => q.1 == r2) _ hp2]
          exact ih
  · rw [if_neg hany, List.find?_append]
    have hlast : List.find? (fun p => p.1 == r2) [(r, (⟨s, w⟩ : SessionEntry σ))] = none := by
      rw [List.find?_cons_of_neg (p := fun (q : String × SessionEntry σ) => q.1 == r2) _ (by simp [Ne.symm hne])]
      rfl
    rw [hlast, Option.or_none]

/-- C10: `add_session` and `remove_session` under room `r` leave the
entry for every other room `r2` untouched (same presence and stored
value), and `add_session` stores exactly the given session and webhook
id under `r`, overwriting any prior entry; both operations are total
functions of the state (never raise). -/
theorem registry_frame {σ : Type} (st : Registry σ) (r r2 : String)
    (hne : r2 ≠ r) (s : σ) (w : Option String) :
    lookupSession r2 (add_session r s w st) = lookupSession r2 st ∧
    lookupSession r2 (remove_session r st).2 = lookupSession r2 st ∧
    lookupSession r (add_session r s w st) = some ⟨s, w⟩ := by
  refine ⟨?_, ?_, ?_⟩
  · rw [lookupSession, lookupSession, find?_add_frame st r r2 hne s w]
  · rw [remove_session]
    cases hf : st.find? (fun p => p.1 == r) with
    | none => rfl
    | some p =>
      rw [lookupSession, lookupSession, find?_filter_frame st r r2 hne]
  · rw [lookupSession, find?_add_session]
    rfl

/-- Witness for C10 at a concrete registry: adding and removing room
`"a"` leaves the entry for room `"b"` unchanged, and the add stores the
given entry under `"a"`. -/
theorem registry_frame_witness :
    lookupSession "b" (add_session "a" (0 : Nat) (some "w1")
      [("b", ⟨5, some "wb"⟩)]) = lookupSession "b" [("b", ⟨5, some "wb"⟩)] ∧
    lookupSession "b" (remove_session "a" [("b", (⟨5, some "wb"⟩ : SessionEntry Nat))]).2 =
      lookupSession "b" [("b", ⟨5, some "wb"⟩)] ∧
    lookupSession "a" (add_session "a" (0 : Nat) (some "w1")
      [("b", ⟨5, some "wb"⟩)]) = some ⟨0, some "w1"⟩ :=
  registry_frame [("b", ⟨5, some "wb"⟩)] "a" "b" (by decide) 0 (some "w1")

end CallVoiceAgent
